import Mathlib

/-!
Shallow embedding of the Calypso protocol core of the Predator-Security-Suite
repository, taken from:

* `src/predator_app/helpers/predator_crypto_calypso.h` (types and declared
  operations of the Calypso engine),
* `src/predator_app/scenes/predator_scene_dictionary_attack_ui.c` (the
  dictionary-attack scene: state, timer callback, input callback, scene
  event handler),
* `src/predator_app/scenes/predator_scene_calypso_contracts_ui.c` (the
  contracts viewer: state, draw callback, input callback).

Machine integers are modelled as `Nat` with explicit `% 2 ^ 32` where
unsigned wraparound matters.  Operations the header declares but whose
bodies are not part of the repository sources are modelled from the
specification and marked `Modelled from the spec:` in their doc comments.
-/

namespace Predator

/-! ## Dictionary-attack scene (predator_scene_dictionary_attack_ui.c) -/

/-- Status enum `DictAttackStatus` of the dictionary-attack scene. -/
inductive DictAttackStatus where
  | Idle
  | Attacking
  | Success
  | Complete
deriving DecidableEq

/-- Struct `DictAttackState`: progress counters and outcome of the
dictionary attack.  `found_key` is the 32-char key string shown on
success. -/
structure DictAttackState where
  status : DictAttackStatus
  frequency : Nat
  keys_tried : Nat
  total_keys : Nat
  attack_time_ms : Nat
  found_key : String
  success : Bool
deriving DecidableEq

/-- The scene's mutable globals: the static `dict_state` plus the static
`attack_start_tick` tick counter. -/
structure DictSceneState where
  dict : DictAttackState
  attack_start_tick : Nat
deriving DecidableEq

/-- Input event types of the firmware GUI; the scene only reacts to
`Short` presses. -/
inductive InputType where
  | Short
  | Long
  | Press
  | Release
  | Repeat
deriving DecidableEq

/-- Input keys of the firmware GUI. -/
inductive InputKey where
  | Up
  | Down
  | Left
  | Right
  | Ok
  | Back
deriving DecidableEq

/-- Scene-manager events delivered to `on_event` handlers. -/
inductive SceneManagerEvent where
  | Back
  | Custom (value : Nat)
deriving DecidableEq

/-- Timer callback `dict_attack_timer_callback`: when the status is `Attacking` it updates
the elapsed time, logs the key at index `keys_tried` (pure logging, no
state effect), increments `keys_tried` by one, and flips the status to
`Complete` once `keys_tried` reaches `total_keys`.  When the status is
anything else the callback returns without touching the state.  `now` is
the value `furi_get_tick()` returns during this tick. -/
def dict_attack_timer_callback (now : Nat) (s : DictSceneState) : DictSceneState :=
  if s.dict.status = DictAttackStatus.Attacking then
    { s with dict :=
      { s.dict with
        attack_time_ms := now - s.attack_start_tick
        keys_tried := s.dict.keys_tried + 1
        status :=
          if s.dict.total_keys ≤ s.dict.keys_tried + 1 then DictAttackStatus.Complete
          else s.dict.status } }
  else s

/-- Input callback `dict_attack_input_callback`: on a short `Ok` press, start the attack
from `Idle` (resetting the counters, setting `total_keys` to
`KEELOQ_KEY_COUNT + HITAG2_KEY_COUNT`, recording the start tick) or stop
it from `Attacking` (status becomes `Complete`).  `Back` is left to the
scene manager; all other inputs leave the state unchanged.  The key-count
constants live in `predator_crypto_keys.h`, outside the sources, so they
are parameters `K` and `H` here. -/
def dict_attack_input_callback (K H : Nat) (itype : InputType) (key : InputKey)
    (now : Nat) (s : DictSceneState) : DictSceneState :=
  if itype = InputType.Short then
    match key with
    | InputKey.Back => s
    | InputKey.Ok =>
      if s.dict.status = DictAttackStatus.Idle then
        { dict := { s.dict with
            status := DictAttackStatus.Attacking
            keys_tried := 0
            total_keys := K + H
            attack_time_ms := 0
            success := false }
          attack_start_tick := now }
      else if s.dict.status = DictAttackStatus.Attacking then
        { s with dict := { s.dict with status := DictAttackStatus.Complete } }
      else s
    | _ => s
  else s

/-- Scene handler `predator_scene_dictionary_attack_ui_on_event`: a `Back` scene event
stops a running attack (status `Complete`); custom events are consumed
without touching the state. -/
def predator_scene_dictionary_attack_ui_on_event (ev : SceneManagerEvent)
    (s : DictSceneState) : DictSceneState :=
  match ev with
  | SceneManagerEvent.Back =>
    if s.dict.status = DictAttackStatus.Attacking then
      { s with dict := { s.dict with status := DictAttackStatus.Complete } }
    else s
  | SceneManagerEvent.Custom _ => s

/-- State after `predator_scene_dictionary_attack_ui_on_enter`: the struct
is zeroed (`memset`), then `status := Idle` and `frequency := 433920000`. -/
def dictEnterState : DictSceneState :=
  { dict := { status := DictAttackStatus.Idle
              frequency := 433920000
              keys_tried := 0
              total_keys := 0
              attack_time_ms := 0
              found_key := ""
              success := false }
    attack_start_tick := 0 }

/-- One externally observable step of the dictionary-attack scene: a timer
tick, an input event, or a scene-manager event. -/
inductive DictStep where
  | timer (now : Nat)
  | input (itype : InputType) (key : InputKey) (now : Nat)
  | scene (ev : SceneManagerEvent)

/-- Apply one scene step. -/
def dictStepRun (K H : Nat) : DictStep → DictSceneState → DictSceneState
  | DictStep.timer now, s => dict_attack_timer_callback now s
  | DictStep.input t k now, s => dict_attack_input_callback K H t k now s
  | DictStep.scene ev, s => predator_scene_dictionary_attack_ui_on_event ev s

/-- Run a sequence of scene steps from a state. -/
def dictRun (K H : Nat) (steps : List DictStep) (s : DictSceneState) : DictSceneState :=
  steps.foldl (fun st stp => dictStepRun K H stp st) s

/-- The progress invariant of the dictionary-attack scene: the tried
counter never exceeds the corpus size, and while the attack is running
there are still untried keys. -/
def DictInv (s : DictSceneState) : Prop :=
  s.dict.keys_tried ≤ s.dict.total_keys ∧
    (s.dict.status = DictAttackStatus.Attacking →
      s.dict.keys_tried < s.dict.total_keys)

instance (s : DictSceneState) : Decidable (DictInv s) := by
  unfold DictInv; infer_instance

/-! ## Calypso data model (predator_crypto_calypso.h) -/

/-- Enum `CalypsoCardType`. -/
inductive CalypsoCardType where
  | Unknown
  | Navigo
  | Lyon_TCL
  | MOBIB
  | VivaViagem
  | Andante
  | Athens
  | Generic
deriving DecidableEq

/-- Enum `CalypsoSecurityLevel`. -/
inductive CalypsoSecurityLevel where
  | None
  | DES
  | TripleDES
  | AES128
deriving DecidableEq

/-- Struct `CalypsoContract`: byte fields are lists of byte values
(`validity_start`/`validity_end` are 3 bytes, `zones` 8 bytes). -/
structure CalypsoContract where
  contract_number : Nat
  tariff_code : Nat
  profile_number : Nat
  validity_start : List Nat
  validity_end : List Nat
  trip_counter : Nat
  minutes_remaining : Nat
  zones : List Nat
  is_active : Bool
deriving DecidableEq

/-- The all-zero contract (`memset` of the struct). -/
def zeroContract : CalypsoContract :=
  { contract_number := 0
    tariff_code := 0
    profile_number := 0
    validity_start := [0, 0, 0]
    validity_end := [0, 0, 0]
    trip_counter := 0
    minutes_remaining := 0
    zones := List.replicate 8 0
    is_active := false }

/-- Declared layout of struct `CalypsoAuthContext`: field name paired with
its declared width (array length for the `uint8_t` array fields, 1 for
scalar fields). -/
def calypsoAuthContextLayout : List (String × Nat) :=
  [("issuer_key", 16), ("session_key", 16), ("diversifier", 8), ("challenge", 8),
   ("key_index", 1), ("security", 1), ("authenticated", 1)]

/-- The fields of `CalypsoAuthContext` that hold an authentication
challenge, under any of the names the specification uses for them. -/
def authContextChallengeFields : List (String × Nat) :=
  calypsoAuthContextLayout.filter fun p =>
    p.1 = "challenge" || p.1 = "reader_challenge" || p.1 = "card_challenge"

/-- Field names declared by struct `CalypsoContract`. -/
def calypsoContractFieldNames : List String :=
  ["contract_number", "tariff_code", "profile_number", "validity_start",
   "validity_end", "trip_counter", "minutes_remaining", "zones", "is_active"]

/-- Members of the contract record that `contracts_draw_callback`
(predator_scene_calypso_contracts_ui.c, lines 39-71) dereferences when it
renders the selected contract. -/
def contractsDrawMemberReads : List String :=
  ["is_active", "contract_number", "validity_start", "validity_end", "tariff"]

/-- The `amount` parameter of `calypso_increase_counter` is declared
`uint16_t`: the function accepts exactly the values below `2 ^ 16`. -/
def calypso_increase_counter_amount_ok (amount : Nat) : Prop := amount < 2 ^ 16

/-- The `amount` parameter of `calypso_decrease_counter` is declared
`uint16_t`: the function accepts exactly the values below `2 ^ 16`. -/
def calypso_decrease_counter_amount_ok (amount : Nat) : Prop := amount < 2 ^ 16

instance : DecidablePred calypso_increase_counter_amount_ok := fun n =>
  inferInstanceAs (Decidable (n < 2 ^ 16))

instance : DecidablePred calypso_decrease_counter_amount_ok := fun n =>
  inferInstanceAs (Decidable (n < 2 ^ 16))

/-- Modelled from the spec: the counter commands carry "a fixed 3-byte
amount field (0-16,777,215)"; this is its big-endian encoding.  The
implementation of the counter commands is absent from the sources (the
header only declares them). -/
def counterAmountField (amount : Nat) : List Nat :=
  [amount / 65536 % 256, amount / 256 % 256, amount % 256]

/-- Numeric value carried by a 3-byte amount field. -/
def counterAmountFieldValue : List Nat → Nat
  | [b2, b1, b0] => b2 * 65536 + b1 * 256 + b0
  | _ => 0

/-! ## Contracts viewer scene (predator_scene_calypso_contracts_ui.c) -/

/-- Constant `2 ^ 32`, the modulus of the scene's `uint32_t` fields. -/
def u32 : Nat := 4294967296

/-- Struct `ContractsState` (the `card` member is omitted: nothing in the
scene reads it).  `contract_count` and `selected_index` are `uint32_t`
values. -/
structure ContractsState where
  contracts : List CalypsoContract
  contract_count : Nat
  selected_index : Nat
  status_text : String
deriving DecidableEq

/-- Array access performed by `contracts_draw_callback`: when
`contract_count == 0` it draws "No contracts found" and returns without
touching the `contracts` array; otherwise it reads
`contracts[selected_index]`. -/
def contracts_draw_access (s : ContractsState) : Option Nat :=
  if s.contract_count = 0 then none else some s.selected_index

/-- Input callback `contracts_input_callback` (short presses): `Left` decrements
`selected_index` when it is positive; `Right` increments it (mod `2 ^ 32`)
when `selected_index < contract_count - 1`, where the subtraction is
`uint32_t` arithmetic and wraps around at `contract_count == 0`; `Back`
pops the scene without touching the state; other keys do nothing. -/
def contracts_input_callback (itype : InputType) (key : InputKey)
    (s : ContractsState) : ContractsState :=
  if itype = InputType.Short then
    match key with
    | InputKey.Back => s
    | InputKey.Left =>
      if 0 < s.selected_index then
        { s with selected_index := s.selected_index - 1 }
      else s
    | InputKey.Right =>
      if s.selected_index < (s.contract_count + (u32 - 1)) % u32 then
        { s with selected_index := (s.selected_index + 1) % u32 }
      else s
    | _ => s
  else s

/-- State after `predator_scene_calypso_contracts_on_enter`: the struct is
zeroed (the `calypso_read_all_contracts` call is commented out, so
`contract_count` stays 0), then `status_text` is set from the count. -/
def contractsEnterState : ContractsState :=
  { contracts := List.replicate 4 zeroContract
    contract_count := 0
    selected_index := 0
    status_text := "Back to exit" }

/-! ## Session cryptography and state machine

The header declares `calypso_diversify_key`, `calypso_generate_session_key`,
`calypso_open_secure_session`, `calypso_update_record`,
`calypso_increase_counter`, `calypso_decrease_counter` and
`calypso_attack_dictionary`, but their bodies are not part of the
repository sources, so they are modelled from the specification
(sections 4.1-4.6 of the spec). -/

/-- Stand-in for the single-block symmetric cipher of spec section 4.2
(pure, stateless, fixed-length in and out): byte-wise XOR of the key with
the plaintext block.  Used only as the block-cipher primitive inside the
spec-modelled definitions below. -/
def calypso_block_xor (key block : List Nat) : List Nat :=
  List.zipWith (fun a b => a ^^^ b) key block

/-- Modelled from the spec: `calypso_diversify_key` (declared in the
header, body absent from the sources).  Spec 4.1: "the diversifier is used
as plaintext block input(s) to a block cipher keyed by the master key; the
cipher's raw output is the diversified key material", a deterministic pure
function of the 16-byte master key and 8-byte diversifier failing only on
a wrong key or diversifier length. -/
def calypso_diversify_key (master_key diversifier : List Nat) : Option (List Nat) :=
  if master_key.length = 16 ∧ diversifier.length = 8 then
    some (calypso_block_xor master_key (diversifier ++ diversifier))
  else none

/-- Modelled from the spec: `calypso_generate_session_key` (declared in
the header, body absent from the sources).  Spec 4.3 (d): the session key
is derived from the diversified key and both challenges via the session
cryptography primitive. -/
def calypso_generate_session_key (diversified_key card_challenge reader_challenge : List Nat) :
    List Nat :=
  calypso_block_xor diversified_key (card_challenge ++ reader_challenge)

/-- The card-side quantities a secure-session attempt interacts with: the
card's true issuer key, its diversifier (the card number, spec 4.3 (a)),
and the random challenge it returns to a "get challenge" exchange
(spec 4.3 (b)). -/
structure CalypsoCardModel where
  issuer_key : List Nat
  diversifier : List Nat
  card_challenge : List Nat
deriving DecidableEq

/-- Modelled from the spec: `calypso_open_secure_session` (declared in the
header, body absent from the sources).  Spec 4.3 steps: (a) diversify the
supplied issuer key with the card's diversifier, (b) obtain the card's
challenge, (c) use the reader challenge, (d) derive the session key from
the diversified key and both challenges, (e) send the mutual-authentication
cryptogram computed from the reader challenge under the session key,
(f) authentication succeeds exactly when it matches the cryptogram the
card computes the same way from its own key.  Returns `true` on mutual
authentication, `false` on any mismatch or diversification failure. -/
def calypso_open_secure_session (card : CalypsoCardModel)
    (reader_challenge issuer_key : List Nat) : Bool :=
  match calypso_diversify_key issuer_key card.diversifier,
        calypso_diversify_key card.issuer_key card.diversifier with
  | some readerDiv, some cardDiv =>
    let readerSession := calypso_generate_session_key readerDiv card.card_challenge reader_challenge
    let cardSession := calypso_generate_session_key cardDiv card.card_challenge reader_challenge
    let readerCryptogram := calypso_block_xor readerSession (reader_challenge ++ card.card_challenge)
    let cardCryptogram := calypso_block_xor cardSession (reader_challenge ++ card.card_challenge)
    decide (readerCryptogram = cardCryptogram)
  | _, _ => false

/-- Result reported by one run of the key recovery engine: the outcome
status (`Success` with the found key, or `Complete` for "complete, not
found" - reusing the scene's status enum, with no error alternative), the
recovered key if any, and the number of keys tried. -/
structure CalypsoDictResult where
  status : DictAttackStatus
  found_key : Option (List Nat)
  keys_tried : Nat
deriving DecidableEq

/-- Modelled from the spec: `calypso_attack_dictionary` (declared in the
header, body absent from the sources; the in-source timer callback drives
per-tick progression but holds no key-matching logic).  Spec 4.6: "for
each key `k` in a bounded corpus, attempt the full 4.3 authentication
sequence using `k` as the issuer key; the first key for which
authentication succeeds is reported as found and the loop terminates
early.  If the corpus is exhausted without success, the engine reports
'complete, not found' - a normal terminal outcome, not an error." -/
def calypso_attack_dictionary (card : CalypsoCardModel) (reader_challenge : List Nat) :
    List (List Nat) → CalypsoDictResult
  | [] => { status := DictAttackStatus.Complete, found_key := none, keys_tried := 0 }
  | k :: rest =>
    if calypso_open_secure_session card reader_challenge k then
      { status := DictAttackStatus.Success, found_key := some k, keys_tried := 1 }
    else
      let r := calypso_attack_dictionary card reader_challenge rest
      { r with keys_tried := r.keys_tried + 1 }

/-- States of the card session state machine (spec 4.3). -/
inductive CalypsoSessionState where
  | Idle
  | Selected
  | Authenticating
  | Authenticated
  | Closed
deriving DecidableEq

/-- Error taxonomy (spec section 7). -/
inductive CalypsoError where
  | TransportFailure
  | ProtocolReject
  | InvalidInput
  | NotAuthenticated
deriving DecidableEq

/-- A session as seen by the authenticated-only operations: the state
machine position plus the key material of the auth context. -/
structure CalypsoSession where
  state : CalypsoSessionState
  issuer_key : List Nat
  session_key : List Nat
deriving DecidableEq

/-- Outcome of one engine operation: the structured result, the command
frames exchanged with the transport, and the session afterwards. -/
structure CalypsoOpResult where
  outcome : Except CalypsoError Unit
  exchanges : List (List Nat)
  after : CalypsoSession

/-- Modelled from the spec: `calypso_update_record` (declared in the
header, body absent from the sources).  Spec 4.3/7: an authenticated-only
operation checks the state is exactly `Authenticated`; from any other
state it fails immediately with `NotAuthenticated` and performs no
transport exchange; otherwise it sends one update command for the record. -/
def calypso_update_record (s : CalypsoSession) (file_id record_number : Nat)
    (data : List Nat) : CalypsoOpResult :=
  if s.state = CalypsoSessionState.Authenticated then
    { outcome := Except.ok ()
      exchanges := [0xDC :: file_id :: record_number :: data]
      after := s }
  else
    { outcome := Except.error CalypsoError.NotAuthenticated
      exchanges := []
      after := s }

/-- Modelled from the spec: `calypso_increase_counter` (declared in the
header, body absent from the sources).  Spec 4.5: requires `Authenticated`
state and sends a single authenticated command carrying the fixed 3-byte
amount field; outside `Authenticated` it fails with `NotAuthenticated` and
exchanges nothing. -/
def calypso_increase_counter (s : CalypsoSession) (counter_number amount : Nat) :
    CalypsoOpResult :=
  if s.state = CalypsoSessionState.Authenticated then
    { outcome := Except.ok ()
      exchanges := [0x32 :: counter_number :: counterAmountField amount]
      after := s }
  else
    { outcome := Except.error CalypsoError.NotAuthenticated
      exchanges := []
      after := s }

/-- Modelled from the spec: `calypso_decrease_counter` (declared in the
header, body absent from the sources).  Mirror of
`calypso_increase_counter`. -/
def calypso_decrease_counter (s : CalypsoSession) (counter_number amount : Nat) :
    CalypsoOpResult :=
  if s.state = CalypsoSessionState.Authenticated then
    { outcome := Except.ok ()
      exchanges := [0x30 :: counter_number :: counterAmountField amount]
      after := s }
  else
    { outcome := Except.error CalypsoError.NotAuthenticated
      exchanges := []
      after := s }

/-! ## Theorems -/

/-- Claim C6 counterexample: `CalypsoAuthContext` does not hold two 8-byte
challenges (a reader challenge and a card challenge); it declares exactly
one challenge field, the single 8-byte `challenge`, so the number of
challenge fields is not the two the claim requires. -/
theorem auth_context_two_challenges_false :
    authContextChallengeFields = [("challenge", 8)] ∧
      authContextChallengeFields.length ≠ 2 := by
  constructor
  · rfl
  · decide

/-- Claim C6 (amended): the `CalypsoAuthContext` session-state type holds
a single 8-byte challenge field, alongside 16 bytes of issuer key
material, a 16-byte derived session key, and the 8-byte diversifier. -/
theorem auth_context_layout_single_challenge :
    ("issuer_key", 16) ∈ calypsoAuthContextLayout ∧
      ("session_key", 16) ∈ calypsoAuthContextLayout ∧
      ("diversifier", 8) ∈ calypsoAuthContextLayout ∧
      authContextChallengeFields = [("challenge", 8)] := by
  refine ⟨?_, ?_, ?_, rfl⟩ <;> decide

/-- Claim C8 (code bug): `contracts_draw_callback` renders the tariff from
a member `tariff` that struct `CalypsoContract` does not declare (its
tariff field is `tariff_code`), so the displayed tariff cannot be the
struct's decoded tariff field. -/
theorem contracts_draw_tariff_member_missing :
    "tariff" ∈ contractsDrawMemberReads ∧
      "tariff" ∉ calypsoContractFieldNames ∧
      "tariff_code" ∈ calypsoContractFieldNames := by
  refine ⟨?_, ?_, ?_⟩ <;> decide

/-- Claim C4 counterexample: the `amount` parameter of
`calypso_increase_counter` and `calypso_decrease_counter` is a `uint16_t`,
so the 3-byte maximum 16,777,215 is not an acceptable amount for either
operation: the accepted range is not the full 3-byte range. -/
theorem counter_amount_rejects_three_byte_max :
    ¬ calypso_increase_counter_amount_ok 16777215 ∧
      ¬ calypso_decrease_counter_amount_ok 16777215 := by
  constructor <;> · intro h; exact absurd h (by decide)

/-- Claim C4 (amended): `calypso_increase_counter` and
`calypso_decrease_counter` accept a 16-bit amount (0-65,535), and every
accepted amount fits the command's fixed 3-byte amount field: its 3-byte
encoding consists of byte values and decodes back to the amount. -/
theorem counter_amount_sixteen_bit_range (amount : Nat) (h : amount ≤ 65535) :
    calypso_increase_counter_amount_ok amount ∧
      calypso_decrease_counter_amount_ok amount ∧
      (counterAmountField amount).length = 3 ∧
      counterAmountFieldValue (counterAmountField amount) = amount ∧
      ∀ b ∈ counterAmountField amount, b < 256 := by
  refine ⟨?_, ?_, rfl, ?_, ?_⟩
  · show amount < 2 ^ 16
    omega
  · show amount < 2 ^ 16
    omega
  · show amount / 65536 % 256 * 65536 + amount / 256 % 256 * 256 + amount % 256 = amount
    omega
  · intro b hb
    simp only [counterAmountField, List.mem_cons, List.not_mem_nil, or_false] at hb
    rcases hb with h1 | h1 | h1 <;> subst h1 <;> omega

/-- Witness for `counter_amount_sixteen_bit_range` at amount 5. -/
theorem counter_amount_sixteen_bit_range_witness :
    5 ≤ 65535 ∧ calypso_increase_counter_amount_ok 5 ∧
      counterAmountFieldValue (counterAmountField 5) = 5 :=
  ⟨by decide, (counter_amount_sixteen_bit_range 5 (by decide)).1,
    (counter_amount_sixteen_bit_range 5 (by decide)).2.2.2.1⟩

/-- Claim C3: while an attack is in progress (status `Attacking`), each
timer tick advances `keys_tried` by exactly one; a tick entered with any
other status performs no key attempt and leaves the whole scene state
unchanged, so cooperative cancellation takes effect between attempts. -/
theorem dict_timer_one_attempt_per_tick (now : Nat) (s : DictSceneState) :
    (s.dict.status = DictAttackStatus.Attacking →
      (dict_attack_timer_callback now s).dict.keys_tried = s.dict.keys_tried + 1) ∧
    (s.dict.status ≠ DictAttackStatus.Attacking →
      dict_attack_timer_callback now s = s) := by
  constructor
  · intro h
    simp [dict_attack_timer_callback, h]
  · intro h
    simp [dict_attack_timer_callback, h]

/-- Concrete scene state with a running attack, used by the witness. -/
def sampleAttackState : DictSceneState :=
  { dict := { status := DictAttackStatus.Attacking
              frequency := 433920000
              keys_tried := 3
              total_keys := 1000
              attack_time_ms := 200
              found_key := ""
              success := false }
    attack_start_tick := 0 }

/-- Witness for `dict_timer_one_attempt_per_tick` on a concrete running
state and a concrete stopped state. -/
theorem dict_timer_one_attempt_per_tick_witness :
    (dict_attack_timer_callback 300 sampleAttackState).dict.keys_tried =
        sampleAttackState.dict.keys_tried + 1 ∧
      dict_attack_timer_callback 300 dictEnterState = dictEnterState :=
  ⟨(dict_timer_one_attempt_per_tick 300 sampleAttackState).1 rfl,
    (dict_timer_one_attempt_per_tick 300 dictEnterState).2 (by decide)⟩

/-- One scene step preserves the progress invariant, provided the key
corpus declared by the key tables is non-empty. -/
lemma dictInv_step (K H : Nat) (hKH : 0 < K + H) (stp : DictStep) (s : DictSceneState)
    (h : DictInv s) : DictInv (dictStepRun K H stp s) := by
  obtain ⟨h1, h2⟩ := h
  cases stp with
  | timer now =>
    by_cases hA : s.dict.status = DictAttackStatus.Attacking
    · have hlt := h2 hA
      simp only [dictStepRun, dict_attack_timer_callback, if_pos hA, DictInv]
      by_cases hdone : s.dict.total_keys ≤ s.dict.keys_tried + 1
      · simp only [if_pos hdone]
        exact ⟨by omega, fun hc => by simp at hc⟩
      · simp only [if_neg hdone]
        exact ⟨by omega, fun _ => by omega⟩
    · simp only [dictStepRun, dict_attack_timer_callback, if_neg hA]
      exact ⟨h1, h2⟩
  | input t k now =>
    cases t with
    | Short =>
      cases k with
      | Ok =>
        by_cases hI : s.dict.status = DictAttackStatus.Idle
        · simp only [dictStepRun, dict_attack_input_callback, if_pos rfl, hI]
          simp only [DictInv]
          exact ⟨Nat.zero_le _, fun _ => hKH⟩
        · by_cases hA : s.dict.status = DictAttackStatus.Attacking
          · simp only [dictStepRun, dict_attack_input_callback, if_pos rfl, if_neg hI, hA]
            simp only [DictInv]
            exact ⟨h1, fun hc => by simp at hc⟩
          · simp only [dictStepRun, dict_attack_input_callback, if_pos rfl, if_neg hI,
              if_neg hA]
            exact ⟨h1, h2⟩
      | Back => exact ⟨h1, h2⟩
      | Up => exact ⟨h1, h2⟩
      | Down => exact ⟨h1, h2⟩
      | Left => exact ⟨h1, h2⟩
      | Right => exact ⟨h1, h2⟩
    | Long => exact ⟨h1, h2⟩
    | Press => exact ⟨h1, h2⟩
    | Release => exact ⟨h1, h2⟩
    | Repeat => exact ⟨h1, h2⟩
  | scene ev =>
    cases ev with
    | Back =>
      by_cases hA : s.dict.status = DictAttackStatus.Attacking
      · simp only [dictStepRun, predator_scene_dictionary_attack_ui_on_event, if_pos hA]
        simp only [DictInv]
        exact ⟨h1, fun hc => by simp at hc⟩
      · simp only [dictStepRun, predator_scene_dictionary_attack_ui_on_event, if_neg hA]
        exact ⟨h1, h2⟩
    | Custom v => exact ⟨h1, h2⟩

/-- Running any sequence of scene steps preserves the progress invariant. -/
lemma dictInv_run (K H : Nat) (hKH : 0 < K + H) (steps : List DictStep)
    (s : DictSceneState) (h : DictInv s) : DictInv (dictRun K H steps s) := by
  induction steps generalizing s with
  | nil => exact h
  | cons stp rest ih => exact ih _ (dictInv_step K H hKH stp s h)

/-- After the status reaches `Complete`, every scene step is a no-op. -/
lemma dict_complete_frozen (K H : Nat) (stp : DictStep) (s : DictSceneState)
    (h : s.dict.status = DictAttackStatus.Complete) : dictStepRun K H stp s = s := by
  cases stp with
  | timer now => simp [dictStepRun, dict_attack_timer_callback, h]
  | input t k now =>
    cases t <;> cases k <;> simp [dictStepRun, dict_attack_input_callback, h]
  | scene ev =>
    cases ev <;> simp [dictStepRun, predator_scene_dictionary_attack_ui_on_event, h]

/-- After the status reaches `Complete`, every run of scene steps is a
no-op. -/
lemma dict_complete_run (K H : Nat) (steps : List DictStep) (s : DictSceneState)
    (h : s.dict.status = DictAttackStatus.Complete) : dictRun K H steps s = s := by
  induction steps with
  | nil => rfl
  | cons stp rest ih =>
    show dictRun K H rest (dictStepRun K H stp s) = s
    rw [dict_complete_frozen K H stp s h, ih]

/-- Claim C10: for every execution of the dictionary-attack scene from its
`on_enter` state, `keys_tried ≤ total_keys` holds after every step (timer
tick, input event, scene event); and once the status has left `Attacking`
for `Complete` (user stop, back event, or corpus exhaustion - the only
exits the handlers perform), no later step performs a key attempt:
`keys_tried` and the status stay unchanged forever after. -/
theorem dict_attack_progress_invariant (K H : Nat) (hKH : 0 < K + H) :
    (∀ steps : List DictStep,
      (dictRun K H steps dictEnterState).dict.keys_tried ≤
        (dictRun K H steps dictEnterState).dict.total_keys) ∧
    (∀ s : DictSceneState, s.dict.status = DictAttackStatus.Complete →
      ∀ steps : List DictStep,
        (dictRun K H steps s).dict.keys_tried = s.dict.keys_tried ∧
        (dictRun K H steps s).dict.status = DictAttackStatus.Complete) := by
  constructor
  · intro steps
    exact (dictInv_run K H hKH steps dictEnterState (by constructor <;> decide)).1
  · intro s hs steps
    rw [dict_complete_run K H steps s hs]
    exact ⟨rfl, hs⟩

/-- Witness for `dict_attack_progress_invariant`: concrete key-table sizes
and a concrete run that starts the attack and ticks once. -/
theorem dict_attack_progress_invariant_witness :
    0 < 980 + 20 ∧
      (dictRun 980 20
          [DictStep.input InputType.Short InputKey.Ok 5, DictStep.timer 6]
          dictEnterState).dict.keys_tried ≤
        (dictRun 980 20
          [DictStep.input InputType.Short InputKey.Ok 5, DictStep.timer 6]
          dictEnterState).dict.total_keys :=
  ⟨by decide, (dict_attack_progress_invariant 980 20 (by decide)).1 _⟩

/-- Run a sequence of input events through `contracts_input_callback`. -/
def contractsNavRun (keys : List (InputType × InputKey)) (s : ContractsState) :
    ContractsState :=
  keys.foldl (fun st p => contracts_input_callback p.1 p.2 st) s

/-- The wrapped `uint32_t` bound `contract_count - 1` evaluates to the
expected value when the count is positive and in `uint32_t` range. -/
lemma contracts_right_bound (c : Nat) (h0 : 0 < c) (hc : c < u32) :
    (c + (u32 - 1)) % u32 = c - 1 := by
  have h1 : c + (u32 - 1) = (c - 1) + u32 := by
    have : 0 < u32 := by decide
    omega
  rw [h1, Nat.add_mod_right, Nat.mod_eq_of_lt (by omega)]

/-- One navigation input preserves the count and keeps the selection in
bounds while contracts are present. -/
lemma contracts_step_bounds (itype : InputType) (key : InputKey) (s : ContractsState)
    (hcnt : s.contract_count < u32) (h0 : 0 < s.contract_count)
    (hidx : s.selected_index < s.contract_count) :
    (contracts_input_callback itype key s).contract_count = s.contract_count ∧
      (contracts_input_callback itype key s).selected_index < s.contract_count := by
  cases itype with
  | Short =>
    cases key with
    | Back => exact ⟨rfl, hidx⟩
    | Ok => exact ⟨rfl, hidx⟩
    | Up => exact ⟨rfl, hidx⟩
    | Down => exact ⟨rfl, hidx⟩
    | Left =>
      by_cases hl : 0 < s.selected_index
      · have hres : contracts_input_callback InputType.Short InputKey.Left s =
            { s with selected_index := s.selected_index - 1 } := by
          simp [contracts_input_callback, hl]
        rw [hres]
        refine ⟨rfl, ?_⟩
        show s.selected_index - 1 < s.contract_count
        omega
      · have hres : contracts_input_callback InputType.Short InputKey.Left s = s := by
          simp [contracts_input_callback, hl]
        rw [hres]
        exact ⟨rfl, hidx⟩
    | Right =>
      have hb := contracts_right_bound s.contract_count h0 hcnt
      by_cases hr : s.selected_index < (s.contract_count + (u32 - 1)) % u32
      · have hres : contracts_input_callback InputType.Short InputKey.Right s =
            { s with selected_index := (s.selected_index + 1) % u32 } := by
          simp [contracts_input_callback, hr]
        rw [hres]
        refine ⟨rfl, ?_⟩
        rw [hb] at hr
        show (s.selected_index + 1) % u32 < s.contract_count
        rw [Nat.mod_eq_of_lt (by omega)]
        omega
      · have hres : contracts_input_callback InputType.Short InputKey.Right s = s := by
          simp [contracts_input_callback, hr]
        rw [hres]
        exact ⟨rfl, hidx⟩
  | Long => exact ⟨rfl, hidx⟩
  | Press => exact ⟨rfl, hidx⟩
  | Release => exact ⟨rfl, hidx⟩
  | Repeat => exact ⟨rfl, hidx⟩

/-- Any sequence of navigation inputs preserves the count and the
selection bound while contracts are present. -/
lemma contracts_run_bounds (keys : List (InputType × InputKey)) (s : ContractsState)
    (hcnt : s.contract_count < u32) (h0 : 0 < s.contract_count)
    (hidx : s.selected_index < s.contract_count) :
    (contractsNavRun keys s).contract_count = s.contract_count ∧
      (contractsNavRun keys s).selected_index < s.contract_count := by
  induction keys generalizing s with
  | nil => exact ⟨rfl, hidx⟩
  | cons p rest ih =>
    obtain ⟨he, hlt⟩ := contracts_step_bounds p.1 p.2 s hcnt h0 hidx
    have step := ih (contracts_input_callback p.1 p.2 s)
      (by rw [he]; exact hcnt) (by rw [he]; exact h0) (by rw [he]; exact hlt)
    show (contractsNavRun rest (contracts_input_callback p.1 p.2 s)).contract_count =
        s.contract_count ∧
      (contractsNavRun rest (contracts_input_callback p.1 p.2 s)).selected_index <
        s.contract_count
    rw [he] at step
    exact step

/-- Claim C9: the contracts viewer's draw callback reads the contracts
array only when `contract_count > 0`; whenever `contract_count > 0` and
the selection starts in bounds, every sequence of navigation inputs keeps
`selected_index` strictly below `contract_count` (hence inside the
4-element array when at most 4 contracts are present); and from the
scene's enter state, where `contract_count == 0`, the unsigned
`contract_count - 1` bound check underflows so a right press grows
`selected_index`, yet the draw callback performs no array access there. -/
theorem contracts_nav_bounds (s : ContractsState) (hcnt : s.contract_count < u32) :
    (∀ i : Nat, contracts_draw_access s = some i → 0 < s.contract_count) ∧
    (0 < s.contract_count → s.selected_index < s.contract_count →
      ∀ keys : List (InputType × InputKey),
        (contractsNavRun keys s).selected_index < (contractsNavRun keys s).contract_count ∧
        ((contractsNavRun keys s).contract_count ≤ 4 →
          (contractsNavRun keys s).selected_index < 4)) ∧
    ((contracts_input_callback InputType.Short InputKey.Right
        contractsEnterState).selected_index =
          contractsEnterState.selected_index + 1 ∧
      contracts_draw_access
        (contracts_input_callback InputType.Short InputKey.Right contractsEnterState) =
          none) := by
  refine ⟨?_, ?_, ?_, ?_⟩
  · intro i hacc
    by_contra hzero
    have hc0 : s.contract_count = 0 := by omega
    simp [contracts_draw_access, hc0] at hacc
  · intro h0 hidx keys
    obtain ⟨he, hlt⟩ := contracts_run_bounds keys s hcnt h0 hidx
    constructor
    · rw [he]; exact hlt
    · intro h4
      rw [he] at h4
      omega
  · decide
  · decide

/-- Concrete viewer state with two contracts, used by the witness. -/
def sampleContractsState : ContractsState :=
  { contracts := List.replicate 4 zeroContract
    contract_count := 2
    selected_index := 0
    status_text := "" }

/-- Witness for `contracts_nav_bounds`: from a two-contract state, a right
press keeps the selection below the count. -/
theorem contracts_nav_bounds_witness :
    sampleContractsState.contract_count < u32 ∧
      (contractsNavRun [(InputType.Short, InputKey.Right)]
          sampleContractsState).selected_index <
        (contractsNavRun [(InputType.Short, InputKey.Right)]
          sampleContractsState).contract_count :=
  ⟨by decide,
    ((contracts_nav_bounds sampleContractsState (by decide)).2.1 (by decide) (by decide)
      [(InputType.Short, InputKey.Right)]).1⟩

/-- Claim C7: key diversification is deterministic - two invocations of
`calypso_diversify_key` with identical 16-byte master key and 8-byte
diversifier produce identical results, and the result is a 16-byte
diversified key. -/
theorem calypso_diversify_deterministic (mk1 mk2 d1 d2 : List Nat)
    (hmk : mk1 = mk2) (hd : d1 = d2) (hlen : mk1.length = 16) (hdlen : d1.length = 8) :
    calypso_diversify_key mk1 d1 = calypso_diversify_key mk2 d2 ∧
      ∃ k, calypso_diversify_key mk1 d1 = some k ∧ k.length = 16 := by
  subst hmk; subst hd
  refine ⟨rfl, calypso_block_xor mk1 (d1 ++ d1), ?_, ?_⟩
  · unfold calypso_diversify_key
    rw [if_pos ⟨hlen, hdlen⟩]
  · unfold calypso_block_xor
    rw [List.length_zipWith, List.length_append, hlen, hdlen]
    omega

/-- Witness for `calypso_diversify_deterministic` on concrete key
material. -/
theorem calypso_diversify_deterministic_witness :
    (List.replicate 16 1).length = 16 ∧
      calypso_diversify_key (List.replicate 16 1) (List.replicate 8 2) =
        calypso_diversify_key (List.replicate 16 1) (List.replicate 8 2) :=
  ⟨by decide,
    (calypso_diversify_deterministic (List.replicate 16 1) (List.replicate 16 1)
      (List.replicate 8 2) (List.replicate 8 2) rfl rfl (by decide) (by decide)).1⟩

/-- Claim C5: every authenticated-only operation (record update, counter
increase, counter decrease) invoked while the session state is not exactly
`Authenticated` fails immediately with `NotAuthenticated`, performs zero
transport exchanges, and leaves the session unchanged. -/
theorem authenticated_only_ops_guard (s : CalypsoSession)
    (h : s.state ≠ CalypsoSessionState.Authenticated)
    (file_id record_number counter_number amount : Nat) (data : List Nat) :
    calypso_update_record s file_id record_number data =
      { outcome := Except.error CalypsoError.NotAuthenticated, exchanges := [], after := s } ∧
    calypso_increase_counter s counter_number amount =
      { outcome := Except.error CalypsoError.NotAuthenticated, exchanges := [], after := s } ∧
    calypso_decrease_counter s counter_number amount =
      { outcome := Except.error CalypsoError.NotAuthenticated, exchanges := [], after := s } := by
  refine ⟨?_, ?_, ?_⟩ <;>
    simp [calypso_update_record, calypso_increase_counter, calypso_decrease_counter, h]

/-- Concrete unauthenticated session, used by the witness. -/
def sampleIdleSession : CalypsoSession :=
  { state := CalypsoSessionState.Idle
    issuer_key := List.replicate 16 1
    session_key := List.replicate 16 0 }

/-- Witness for `authenticated_only_ops_guard` on a concrete `Idle`
session. -/
theorem authenticated_only_ops_guard_witness :
    calypso_update_record sampleIdleSession 7 1 [1, 2, 3] =
      { outcome := Except.error CalypsoError.NotAuthenticated, exchanges := [],
        after := sampleIdleSession } :=
  (authenticated_only_ops_guard sampleIdleSession (by decide) 7 1 9 5 [1, 2, 3]).1

/-- XOR-ing a fixed block cancels: the model cipher is injective in the
key once the block covers it. -/
lemma calypso_block_xor_inj (a b c : List Nat) (hab : a.length = b.length)
    (hac : a.length ≤ c.length) :
    calypso_block_xor a c = calypso_block_xor b c ↔ a = b := by
  have hcons : ∀ (u : Nat) (us : List Nat) (v : Nat) (vs : List Nat),
      calypso_block_xor (u :: us) (v :: vs) = (u ^^^ v) :: calypso_block_xor us vs :=
    fun _ _ _ _ => rfl
  induction a generalizing b c with
  | nil =>
    cases b with
    | nil => simp
    | cons y ys => simp at hab
  | cons x xs ih =>
    cases b with
    | nil => simp at hab
    | cons y ys =>
      cases c with
      | nil => simp at hac
      | cons z zs =>
        have hab2 : xs.length = ys.length := by simpa using hab
        have hac2 : xs.length ≤ zs.length := by simpa using hac
        rw [hcons, hcons]
        constructor
        · intro h
          injection h with h1 h2
          have hx : x = y := by
            have h3 : x ^^^ z ^^^ z = y ^^^ z ^^^ z := by rw [h1]
            rwa [Nat.xor_cancel_right, Nat.xor_cancel_right] at h3
          have hxs : xs = ys := (ih ys zs hab2 hac2).mp h2
          rw [hx, hxs]
        · intro h
          injection h with h1 h2
          rw [h1, h2]

/-- Length of the model cipher's output. -/
lemma length_block_xor (a b : List Nat) :
    (calypso_block_xor a b).length = min a.length b.length := by
  unfold calypso_block_xor
  exact List.length_zipWith _ _ _

/-- A secure-session attempt succeeds exactly when the supplied issuer key
is the card's issuer key, for well-formed key material and challenges. -/
lemma calypso_open_secure_session_iff (card : CalypsoCardModel) (rch k : List Nat)
    (hik : card.issuer_key.length = 16) (hdv : card.diversifier.length = 8)
    (hcc : card.card_challenge.length = 8) (hrc : rch.length = 8) :
    calypso_open_secure_session card rch k = true ↔ k = card.issuer_key := by
  by_cases hk : k.length = 16
  · have hdk : calypso_diversify_key k card.diversifier =
        some (calypso_block_xor k (card.diversifier ++ card.diversifier)) := by
      unfold calypso_diversify_key
      rw [if_pos ⟨hk, hdv⟩]
    have hdi : calypso_diversify_key card.issuer_key card.diversifier =
        some (calypso_block_xor card.issuer_key (card.diversifier ++ card.diversifier)) := by
      unfold calypso_diversify_key
      rw [if_pos ⟨hik, hdv⟩]
    have hAlen : (calypso_block_xor k (card.diversifier ++ card.diversifier)).length = 16 := by
      rw [length_block_xor, List.length_append, hk, hdv]
      omega
    have hBlen :
        (calypso_block_xor card.issuer_key (card.diversifier ++ card.diversifier)).length
          = 16 := by
      rw [length_block_xor, List.length_append, hik, hdv]
      omega
    have hchlen : (card.card_challenge ++ rch).length = 16 := by
      rw [List.length_append, hcc, hrc]
    have hmlen : (rch ++ card.card_challenge).length = 16 := by
      rw [List.length_append, hcc, hrc]
    have hsRlen :
        (calypso_generate_session_key
          (calypso_block_xor k (card.diversifier ++ card.diversifier))
          card.card_challenge rch).length = 16 := by
      unfold calypso_generate_session_key
      rw [length_block_xor, hAlen, hchlen]
      omega
    have hsClen :
        (calypso_generate_session_key
          (calypso_block_xor card.issuer_key (card.diversifier ++ card.diversifier))
          card.card_challenge rch).length = 16 := by
      unfold calypso_generate_session_key
      rw [length_block_xor, hBlen, hchlen]
      omega
    unfold calypso_open_secure_session
    rw [hdk, hdi]
    show decide _ = true ↔ _
    rw [decide_eq_true_eq]
    have iff1 := calypso_block_xor_inj
      (calypso_generate_session_key
        (calypso_block_xor k (card.diversifier ++ card.diversifier))
        card.card_challenge rch)
      (calypso_generate_session_key
        (calypso_block_xor card.issuer_key (card.diversifier ++ card.diversifier))
        card.card_challenge rch)
      (rch ++ card.card_challenge)
      (by rw [hsRlen, hsClen]) (by rw [hsRlen, hmlen])
    have iff2 := calypso_block_xor_inj
      (calypso_block_xor k (card.diversifier ++ card.diversifier))
      (calypso_block_xor card.issuer_key (card.diversifier ++ card.diversifier))
      (card.card_challenge ++ rch)
      (by rw [hAlen, hBlen]) (by rw [hAlen, hchlen])
    have iff3 := calypso_block_xor_inj k card.issuer_key
      (card.diversifier ++ card.diversifier)
      (by rw [hk, hik]) (by rw [hk, List.length_append, hdv])
    exact iff1.trans ((iff2.trans iff3))
  · have hnone : calypso_diversify_key k card.diversifier = none := by
      unfold calypso_diversify_key
      rw [if_neg]
      intro hcontra
      exact hk hcontra.1
    constructor
    · intro h
      unfold calypso_open_secure_session at h
      rw [hnone] at h
      cases hx : calypso_diversify_key card.issuer_key card.diversifier with
      | none =>
        rw [hx] at h
        simp at h
      | some v =>
        rw [hx] at h
        simp at h
    · intro hke
      exact absurd (hke ▸ hik) hk

/-- The key recovery engine reports the first key of the corpus for which
the authentication sequence succeeds, after exactly one attempt per key up
to and including it. -/
lemma calypso_attack_dictionary_success (card : CalypsoCardModel) (rch : List Nat)
    (corpus : List (List Nat)) (i : Nat) (hi : i < corpus.length)
    (hsucc : calypso_open_secure_session card rch (corpus.get ⟨i, hi⟩) = true)
    (hfirst : ∀ j, j < i → ∀ hj : j < corpus.length,
      calypso_open_secure_session card rch (corpus.get ⟨j, hj⟩) = false) :
    calypso_attack_dictionary card rch corpus =
      { status := DictAttackStatus.Success
        found_key := some (corpus.get ⟨i, hi⟩)
        keys_tried := i + 1 } := by
  induction corpus generalizing i with
  | nil => exact absurd hi (by simp)
  | cons khead rest ih =>
    cases i with
    | zero =>
      have hget : (khead :: rest).get ⟨0, hi⟩ = khead := rfl
      rw [hget] at hsucc
      simp [calypso_attack_dictionary, hsucc, hget]
    | succ n =>
      have h0 : calypso_open_secure_session card rch khead = false := by
        have := hfirst 0 (Nat.succ_pos n) (by simp)
        simpa using this
      have hi2 : n < rest.length := by simpa using Nat.lt_of_succ_lt_succ hi
      have hgetn : (khead :: rest).get ⟨n + 1, hi⟩ = rest.get ⟨n, hi2⟩ := rfl
      have hsucc2 : calypso_open_secure_session card rch (rest.get ⟨n, hi2⟩) = true := by
        rwa [hgetn] at hsucc
      have hfirst2 : ∀ j, j < n → ∀ hj : j < rest.length,
          calypso_open_secure_session card rch (rest.get ⟨j, hj⟩) = false := by
        intro j hj hjl
        have hjl2 : j + 1 < (khead :: rest).length := by simpa using Nat.succ_lt_succ hjl
        have hg : (khead :: rest).get ⟨j + 1, hjl2⟩ = rest.get ⟨j, hjl⟩ := rfl
        have := hfirst (j + 1) (Nat.succ_lt_succ hj) hjl2
        rwa [hg] at this
      have hrec := ih n hi2 hsucc2 hfirst2
      simp [calypso_attack_dictionary, h0, hrec, hgetn]

/-- When no key of the corpus authenticates, the engine tries every key
and reports the complete-not-found terminal outcome. -/
lemma calypso_attack_dictionary_exhausted (card : CalypsoCardModel) (rch : List Nat)
    (corpus : List (List Nat))
    (h : ∀ k ∈ corpus, calypso_open_secure_session card rch k = false) :
    calypso_attack_dictionary card rch corpus =
      { status := DictAttackStatus.Complete
        found_key := none
        keys_tried := corpus.length } := by
  induction corpus with
  | nil => rfl
  | cons khead rest ih =>
    have h0 : calypso_open_secure_session card rch khead = false := h khead (by simp)
    have hrec := ih (fun k hk => h k (by simp [hk]))
    simp [calypso_attack_dictionary, h0, hrec]

/-- Claim C1: over a corpus of N keys whose first occurrence of the card's
true key is at index i, the key recovery engine reports success after
exactly i + 1 attempts; over a corpus containing no matching key it
reports the complete-not-found terminal outcome (the result type carries
no error alternative) after exactly N attempts. -/
theorem calypso_dictionary_reports (card : CalypsoCardModel) (rch : List Nat)
    (corpus : List (List Nat)) (hik : card.issuer_key.length = 16)
    (hdv : card.diversifier.length = 8) (hcc : card.card_challenge.length = 8)
    (hrc : rch.length = 8) :
    (∀ i : Nat, ∀ hi : i < corpus.length,
      corpus.get ⟨i, hi⟩ = card.issuer_key →
      (∀ j, j < i → ∀ hj : j < corpus.length, corpus.get ⟨j, hj⟩ ≠ card.issuer_key) →
      calypso_attack_dictionary card rch corpus =
        { status := DictAttackStatus.Success
          found_key := some card.issuer_key
          keys_tried := i + 1 }) ∧
    ((∀ k ∈ corpus, k ≠ card.issuer_key) →
      calypso_attack_dictionary card rch corpus =
        { status := DictAttackStatus.Complete
          found_key := none
          keys_tried := corpus.length }) := by
  constructor
  · intro i hi htrue hfirst
    have hsucc : calypso_open_secure_session card rch (corpus.get ⟨i, hi⟩) = true :=
      (calypso_open_secure_session_iff card rch _ hik hdv hcc hrc).mpr htrue
    have hprev : ∀ j, j < i → ∀ hj : j < corpus.length,
        calypso_open_secure_session card rch (corpus.get ⟨j, hj⟩) = false := by
      intro j hj hjl
      have hne := hfirst j hj hjl
      cases hb : calypso_open_secure_session card rch (corpus.get ⟨j, hjl⟩) with
      | false => rfl
      | true =>
        exact absurd ((calypso_open_secure_session_iff card rch _ hik hdv hcc hrc).mp hb) hne
    have hres := calypso_attack_dictionary_success card rch corpus i hi hsucc hprev
    rw [hres, htrue]
  · intro hall
    refine calypso_attack_dictionary_exhausted card rch corpus ?_
    intro k hk
    cases hb : calypso_open_secure_session card rch k with
    | false => rfl
    | true =>
      exact absurd ((calypso_open_secure_session_iff card rch k hik hdv hcc hrc).mp hb)
        (hall k hk)

/-- Concrete card and corpus (true key second), used by the witnesses. -/
def sampleCard : CalypsoCardModel :=
  { issuer_key := List.replicate 16 5
    diversifier := List.replicate 8 3
    card_challenge := List.replicate 8 4 }

/-- Two-key corpus whose second key is `sampleCard`'s issuer key. -/
def sampleCorpus : List (List Nat) :=
  [List.replicate 16 7, List.replicate 16 5]

/-- Witness for `calypso_dictionary_reports`: the true key sits at index 1
of a two-key corpus and the engine succeeds after 2 attempts. -/
theorem calypso_dictionary_reports_witness :
    calypso_attack_dictionary sampleCard (List.replicate 8 9) sampleCorpus =
      { status := DictAttackStatus.Success
        found_key := some sampleCard.issuer_key
        keys_tried := 2 } :=
  (calypso_dictionary_reports sampleCard (List.replicate 8 9) sampleCorpus
      (by decide) (by decide) (by decide) (by decide)).1 1 (by decide) (by decide)
    (fun j hj hjl => by
      have hj0 : j = 0 := by omega
      subst hj0
      have hg : sampleCorpus.get ⟨0, hjl⟩ = List.replicate 16 7 := rfl
      rw [hg]
      decide)

/-- Claim C2: the key whose full section-4.3 authentication sequence
(`calypso_open_secure_session`, invoked with each corpus key as the issuer
key) succeeds first is reported as the found key, the loop having
terminated early after exactly that many attempts. -/
theorem calypso_dictionary_first_success (card : CalypsoCardModel) (rch : List Nat)
    (corpus : List (List Nat)) (i : Nat) (hi : i < corpus.length)
    (hsucc : calypso_open_secure_session card rch (corpus.get ⟨i, hi⟩) = true)
    (hfirst : ∀ j, j < i → ∀ hj : j < corpus.length,
      calypso_open_secure_session card rch (corpus.get ⟨j, hj⟩) = false) :
    calypso_attack_dictionary card rch corpus =
      { status := DictAttackStatus.Success
        found_key := some (corpus.get ⟨i, hi⟩)
        keys_tried := i + 1 } ∧
    i + 1 ≤ corpus.length :=
  ⟨calypso_attack_dictionary_success card rch corpus i hi hsucc hfirst, hi⟩

/-- Witness for `calypso_dictionary_first_success` on the concrete corpus:
the first (and only) authenticating key is at index 1. -/
theorem calypso_dictionary_first_success_witness :
    calypso_attack_dictionary sampleCard (List.replicate 8 9) sampleCorpus =
      { status := DictAttackStatus.Success
        found_key := some (sampleCorpus.get ⟨1, by decide⟩)
        keys_tried := 2 } ∧
    1 + 1 ≤ sampleCorpus.length :=
  calypso_dictionary_first_success sampleCard (List.replicate 8 9) sampleCorpus 1
    (by decide) (by decide)
    (fun j hj hjl => by
      have hj0 : j = 0 := by omega
      subst hj0
      have hg : sampleCorpus.get ⟨0, hjl⟩ = List.replicate 16 7 := rfl
      rw [hg]
      decide)

end Predator
